import Mathlib

/-!
Shallow embedding of the admin-account lifecycle core of the
GeeksForGeeksSIT event_management repository: invitation-gated onboarding,
credential login, profile update, and JWT issuance/verification.

The embedding follows the JavaScript source:
* `src/constants/errorCodes.js` — error codes;
* `src/utils/errors.js` — the `APIError` shape and its constructors;
* `src/utils/jwt.js` — `verifyJWT`;
* `src/services/adminOnboardingService.js` — `validateInvitationCode`,
  `checkStudentIDExists`, `checkEmailExists`, `validateRole`,
  `validateBranch`, `hashPassword`, `createAdminWithTransaction`,
  `loginAdmin`, `updateAdmin`, `onboardAdmin`;
* `src/middleware/validateAdmin.js` — `validateAdminUpdateInput`.

The PostgreSQL store is modelled as explicit lists of rows; the storage
layer's unique constraints on `Admin.StudentID` and `Admin.Email` (the ones
the service relies on, per the schema) are modelled inside the insert.
The external `bcrypt` library is modelled as a `Hasher` parameter (a hash
function and a compare predicate); the external `jsonwebtoken` library is
modelled with an explicit signature function parameter.  Wall-clock time is
an explicit `now : Nat` parameter.  Row objects returned to callers
(SQL `RETURNING` lists and JS object literals) are modelled as association
lists of field names, mirroring exactly the columns/keys the source lists.
-/

namespace EventMgmt

/-- Machine-readable error codes, from `ERROR_CODES` in
`src/constants/errorCodes.js`. -/
inductive ErrorCode where
  | INVALID_INPUT
  | MISSING_FIELD
  | INVALID_EMAIL
  | INVALID_PASSWORD
  | INVALID_GRADUATION_YEAR
  | INVALID_PHONE
  | UNAUTHORIZED
  | FORBIDDEN
  | DUPLICATE_STUDENT_ID
  | DUPLICATE_EMAIL
  | INVALID_ROLE
  | INVALID_BRANCH
  | INVALID_INVITATION_CODE
  | INVITATION_CODE_INACTIVE
  | INVITATION_CODE_EXPIRED
  | INVITATION_CODE_ALREADY_USED
  | DATABASE_ERROR
  | TRANSACTION_FAILED
  | INTERNAL_ERROR
  deriving DecidableEq, Repr

/-- The `APIError` class of `src/utils/errors.js`: an HTTP status code, a
machine-readable error code and a human-readable message.  (The `details`
and `timestamp` fields are presentation-only and carry no branching logic
in the core, so they are omitted.) -/
structure APIError where
  statusCode : Nat
  errorCode : ErrorCode
  message : String
  deriving DecidableEq, Repr

/-- Constructor `createValidationError` (HTTP 400). -/
def createValidationError (c : ErrorCode) (m : String) : APIError :=
  { statusCode := 400, errorCode := c, message := m }

/-- Constructor `createUnauthorizedError` (HTTP 401). -/
def createUnauthorizedError (c : ErrorCode) (m : String) : APIError :=
  { statusCode := 401, errorCode := c, message := m }

/-- Constructor `createNotFoundError` (HTTP 404). -/
def createNotFoundError (c : ErrorCode) (m : String) : APIError :=
  { statusCode := 404, errorCode := c, message := m }

/-- Constructor `createConflictError` (HTTP 409). -/
def createConflictError (c : ErrorCode) (m : String) : APIError :=
  { statusCode := 409, errorCode := c, message := m }

/-- Constructor `createServerError` (HTTP 500). -/
def createServerError (c : ErrorCode) (m : String) : APIError :=
  { statusCode := 500, errorCode := c, message := m }

/-- A row of the `"Admin"` table. -/
structure AdminRow where
  adminID : Nat
  studentID : String
  fullName : String
  email : String
  passwordHash : String
  phone : String
  roleID : Nat
  branchID : Option Nat
  graduationYear : Nat
  currentYear : Nat
  invitationCode : String
  createdAt : Nat
  updatedAt : Nat
  deriving DecidableEq, Repr

/-- A row of the `"InvitationCode"` table. -/
structure InvitationCodeRow where
  codeID : Nat
  code : String
  roleID : Nat
  isActive : Bool
  isUsed : Bool
  expiresAt : Option Nat
  usedByAdminID : Option Nat
  updatedAt : Nat
  deriving DecidableEq, Repr

/-- A row of the `"Role"` table. -/
structure RoleRow where
  roleID : Nat
  roleName : String
  accessLevel : Nat
  deriving DecidableEq, Repr

/-- A row of the `"Branch"` table. -/
structure BranchRow where
  branchID : Nat
  branchName : String
  deriving DecidableEq, Repr

/-- The database state seen through the connection pool: the four stores
the service touches, plus the sequence feeding the generated `AdminID`. -/
structure DB where
  admins : List AdminRow
  invitationCodes : List InvitationCodeRow
  roles : List RoleRow
  branches : List BranchRow
  nextAdminID : Nat
  deriving DecidableEq, Repr

/-- Model of the external `bcrypt` library: a one-way hash and the
comparison predicate (`bcrypt.hash` with its fixed cost factor baked in,
and `bcrypt.compare`). -/
structure Hasher where
  hash : String → String
  compare : String → String → Bool

/-- A field value of a row object handed back to the caller (the SQL
`RETURNING` row or a JS object literal). -/
inductive Value where
  | vNat (n : Nat)
  | vStr (s : String)
  | vOptNat (o : Option Nat)
  deriving DecidableEq, Repr

/-- Decidable equality for `Except`, so that concrete runs of the fallible
operations can be evaluated inside proofs. -/
instance {ε α : Type} [DecidableEq ε] [DecidableEq α] : DecidableEq (Except ε α) := by
  intro x y
  cases x with
  | ok a =>
    cases y with
    | ok b =>
      cases decEq a b with
      | isTrue h => exact isTrue (by rw [h])
      | isFalse h => exact isFalse (by intro hc; injection hc; contradiction)
    | error _ => exact isFalse (by intro hc; exact Except.noConfusion hc)
  | error a =>
    cases y with
    | ok _ => exact isFalse (by intro hc; exact Except.noConfusion hc)
    | error b =>
      cases decEq a b with
      | isTrue h => exact isTrue (by rw [h])
      | isFalse h => exact isFalse (by intro hc; injection hc; contradiction)

/-- JavaScript truthiness of an optional string: absent (`undefined` or
`null`) and the empty string are falsy. -/
def truthyStr (o : Option String) : Bool :=
  match o with
  | none => false
  | some s => !s.isEmpty

/-- JavaScript truthiness of an optional number: absent and `0` are falsy. -/
def truthyNat (o : Option Nat) : Bool :=
  match o with
  | none => false
  | some n => n != 0

/-! ## JWT verification (`src/utils/jwt.js`) -/

/-- Identity claims placed in the token payload by `generateJWT`. -/
structure JwtClaims where
  adminID : Nat
  studentID : String
  email : String
  roleID : Nat
  fullName : String
  deriving DecidableEq, Repr

/-- The signed body of a JWT: the claims plus the registered fields
(`iss`, `aud`, `sub`, `exp`) that `jwt.sign` attaches. -/
structure JwtBody where
  claims : JwtClaims
  iss : String
  aud : String
  sub : String
  exp : Nat
  deriving DecidableEq, Repr

/-- A token as handed to `verifyJWT`: a body plus a signature string. -/
structure JwtToken where
  body : JwtBody
  sig : String
  deriving DecidableEq, Repr

/-- Model of the external `jsonwebtoken` library's `jwt.verify`: given the
MAC function `mac` relating a secret and a body to the correct signature,
it rejects a bad signature, then an elapsed expiry (`exp` is compared
against the clock; the token is dead from `exp` onwards), then an audience
mismatch, then an issuer mismatch, and otherwise yields the decoded body. -/
def jwtLibVerify (mac : String → JwtBody → String) (secret : String) (now : Nat)
    (tok : JwtToken) (issuer audience : String) : Except String JwtBody :=
  if tok.sig ≠ mac secret tok.body then .error "invalid signature"
  else if tok.body.exp ≤ now then .error "jwt expired"
  else if tok.body.aud ≠ audience then .error "jwt audience invalid"
  else if tok.body.iss ≠ issuer then .error "jwt issuer invalid"
  else .ok tok.body

/-- The `verifyJWT` function of `src/utils/jwt.js`: fails with
`INTERNAL_ERROR` when the secret is unset; calls `jwt.verify` with the
fixed issuer `gfg-event-management` and audience `admin-api`; and wraps any
library failure in `createServerError ERROR_CODES.INTERNAL_ERROR`. -/
def verifyJWT (mac : String → JwtBody → String) (jwtSecret : Option String)
    (now : Nat) (token : JwtToken) : Except APIError JwtBody :=
  match jwtSecret with
  | none => .error (createServerError .INTERNAL_ERROR "JWT_SECRET not configured")
  | some secret =>
    match jwtLibVerify mac secret now token "gfg-event-management" "admin-api" with
    | .error msg => .error (createServerError .INTERNAL_ERROR ("JWT verification failed: " ++ msg))
    | .ok body => .ok body

/-! ## Onboarding service (`src/services/adminOnboardingService.js`) -/

/-- The `SELECT ... FROM "InvitationCode" ic JOIN "Role" r ... WHERE
ic."Code" = $1` lookup of `validateInvitationCode`: the first invitation
row carrying the code, joined with its role row (the join yields no row
when either is absent). -/
def findInvitationWithRole (db : DB) (code : String) :
    Option (InvitationCodeRow × RoleRow) :=
  match db.invitationCodes.find? (fun ic => ic.code == code) with
  | none => none
  | some ic =>
    match db.roles.find? (fun r => r.roleID == ic.roleID) with
    | none => none
    | some r => some (ic, r)

/-- STEP 1 of the service, `validateInvitationCode`: look the code up
(joined with its role), then check the active flag, then the used flag,
then the expiry (`ExpiresAt` set and strictly earlier than now), in that
order, each failure mapped to its own error code. -/
def validateInvitationCode (db : DB) (now : Nat) (code : String) :
    Except APIError InvitationCodeRow :=
  match findInvitationWithRole db code with
  | none =>
    .error (createNotFoundError .INVALID_INVITATION_CODE "Invitation code does not exist")
  | some (invitationCode, _role) =>
    if !invitationCode.isActive then
      .error (createValidationError .INVITATION_CODE_INACTIVE "Invitation code is inactive")
    else if invitationCode.isUsed then
      .error (createValidationError .INVITATION_CODE_ALREADY_USED
        "Invitation code has already been used")
    else
      match invitationCode.expiresAt with
      | some t =>
        if t < now then
          .error (createValidationError .INVITATION_CODE_EXPIRED "Invitation code has expired")
        else .ok invitationCode
      | none => .ok invitationCode

/-- STEP 2, `checkStudentIDExists`: existence probe on `"StudentID"`. -/
def checkStudentIDExists (db : DB) (studentID : String) : Bool :=
  db.admins.any (fun a => a.studentID == studentID)

/-- STEP 3, `checkEmailExists`: existence probe on `"Email"`. -/
def checkEmailExists (db : DB) (email : String) : Bool :=
  db.admins.any (fun a => a.email == email)

/-- STEP 4, `validateRole`: fails with `INVALID_ROLE` when the role
identifier does not exist, otherwise returns the role row. -/
def validateRole (db : DB) (roleID : Nat) : Except APIError RoleRow :=
  match db.roles.find? (fun r => r.roleID == roleID) with
  | none => .error (createValidationError .INVALID_ROLE "Invalid Role ID")
  | some r => .ok r

/-- STEP 5, `validateBranch`: returns nothing when no branch identifier is
supplied (the function's own `if (!branchID) return null` guard), fails
with `INVALID_BRANCH` when it does not exist, otherwise returns the row. -/
def validateBranch (db : DB) (branchID : Option Nat) :
    Except APIError (Option BranchRow) :=
  if !truthyNat branchID then .ok none
  else
    match db.branches.find? (fun b => some b.branchID == branchID) with
    | none => .error (createValidationError .INVALID_BRANCH "Invalid Branch ID")
    | some b => .ok (some b)

/-- STEP 6, `hashPassword`: delegates to the bcrypt hash. -/
def hashPassword (hasher : Hasher) (password : String) : String :=
  hasher.hash password

/-- The candidate data handed to the atomic write: the validated input
fields plus the computed password hash. -/
structure AdminData where
  studentID : String
  fullName : String
  email : String
  passwordHash : String
  phone : String
  roleID : Nat
  branchID : Option Nat
  graduationYear : Nat
  invitationCode : String
  deriving DecidableEq, Repr

/-- The `RETURNING` column list of the admin `INSERT` in
`createAdminWithTransaction` — note `"PasswordHash"` is not among the
returned columns. -/
def adminInsertReturning (a : AdminRow) : List (String × Value) :=
  [("AdminID", .vNat a.adminID),
   ("StudentID", .vStr a.studentID),
   ("FullName", .vStr a.fullName),
   ("Email", .vStr a.email),
   ("Phone", .vStr a.phone),
   ("RoleID", .vNat a.roleID),
   ("BranchID", .vOptNat a.branchID),
   ("GraduationYear", .vNat a.graduationYear),
   ("CurrentYear", .vNat a.currentYear),
   ("CreatedAt", .vNat a.createdAt)]

/-- The admin `INSERT` as executed by the storage layer inside the
transaction: it enforces the unique constraints on `"StudentID"` and
`"Email"` (the constraints §6 of the design requires of the store), then
appends the new row with a generated `AdminID`.  `CurrentYear` is the
server-computed column whose derivation lives outside the onboarding path;
it is supplied as the function `curYear` of the graduation year. -/
def insertAdmin (curYear : Nat → Nat) (db : DB) (d : AdminData) (now : Nat) :
    Except String (AdminRow × DB) :=
  if db.admins.any (fun a => a.studentID == d.studentID) then
    .error "duplicate key value violates unique constraint on StudentID"
  else if db.admins.any (fun a => a.email == d.email) then
    .error "duplicate key value violates unique constraint on Email"
  else
    let row : AdminRow :=
      { adminID := db.nextAdminID
        studentID := d.studentID
        fullName := d.fullName
        email := d.email
        passwordHash := d.passwordHash
        phone := d.phone
        roleID := d.roleID
        branchID := d.branchID
        graduationYear := d.graduationYear
        currentYear := curYear d.graduationYear
        invitationCode := d.invitationCode
        createdAt := now
        updatedAt := now }
    .ok (row, { db with admins := db.admins ++ [row], nextAdminID := db.nextAdminID + 1 })

/-- The `UPDATE "InvitationCode" SET "IsUsed" = TRUE, "UsedByAdminID" = $1,
"UpdatedAt" = ... WHERE "CodeID" = $2 RETURNING "CodeID"` statement: when
no row carries the `CodeID` the `RETURNING` set is empty and the service
throws `Failed to mark invitation code as used`; otherwise every row with
that `CodeID` is marked used by the given admin. -/
def markInvitationCodeUsed (db : DB) (codeID adminID now : Nat) :
    Except String DB :=
  if db.invitationCodes.any (fun ic => ic.codeID == codeID) then
    .ok { db with
      invitationCodes := db.invitationCodes.map (fun ic =>
        if ic.codeID == codeID then
          { ic with isUsed := true, usedByAdminID := some adminID, updatedAt := now }
        else ic) }
  else .error "Failed to mark invitation code as used"

/-- STEP 7, `createAdminWithTransaction`: `BEGIN`; insert the admin (with
`BranchID` coerced through `adminData.branchID || null`); mark the
invitation code used by the new admin; `COMMIT`.  On any error the
transaction is rolled back — the returned state is the entry state — and a
`createServerError(TRANSACTION_FAILED, ...)` is surfaced. -/
def createAdminWithTransaction (curYear : Nat → Nat) (db : DB)
    (adminData : AdminData) (invitationCodeData : InvitationCodeRow) (now : Nat) :
    Except APIError (List (String × Value)) × DB :=
  let values : AdminData :=
    { adminData with
      branchID := if truthyNat adminData.branchID then adminData.branchID else none }
  match insertAdmin curYear db values now with
  | .error msg => (.error (createServerError .TRANSACTION_FAILED msg), db)
  | .ok (createdAdmin, db1) =>
    match markInvitationCodeUsed db1 invitationCodeData.codeID createdAdmin.adminID now with
    | .error msg => (.error (createServerError .TRANSACTION_FAILED msg), db)
    | .ok db2 => (.ok (adminInsertReturning createdAdmin), db2)

/-- The object literal `loginAdmin` returns on success ("Return admin
without password hash"): exactly the keys of the source, `PasswordHash`
deliberately left out. -/
def loginAdminResult (a : AdminRow) : List (String × Value) :=
  [("AdminID", .vNat a.adminID),
   ("StudentID", .vStr a.studentID),
   ("Email", .vStr a.email),
   ("FullName", .vStr a.fullName),
   ("Phone", .vStr a.phone),
   ("RoleID", .vNat a.roleID),
   ("BranchID", .vOptNat a.branchID),
   ("GraduationYear", .vNat a.graduationYear),
   ("CurrentYear", .vNat a.currentYear),
   ("CreatedAt", .vNat a.createdAt)]

/-- The `loginAdmin` service: look the admin up by email; when the email is
unknown, or when the bcrypt comparison of the supplied password against the
stored hash fails, throw the one `createValidationError(INVALID_INPUT,
'Invalid email or password')`; otherwise return the hash-free object. -/
def loginAdmin (hasher : Hasher) (db : DB) (email password : String) :
    Except APIError (List (String × Value)) :=
  match db.admins.find? (fun a => a.email == email) with
  | none => .error (createValidationError .INVALID_INPUT "Invalid email or password")
  | some admin =>
    if hasher.compare password admin.passwordHash then .ok (loginAdminResult admin)
    else .error (createValidationError .INVALID_INPUT "Invalid email or password")

/-- The patch accepted by `updateAdmin` (the `req.validated` object built
by the update middleware): every field optional. -/
structure UpdatePatch where
  fullName : Option String
  phone : Option String
  password : Option String
  oldPassword : Option String
  deriving DecidableEq, Repr

/-- The dynamic `SET` clause of `updateAdmin` applied to one row: each of
`fullName`, `phone`, `password` is written only when truthy in the patch
(the new password through the bcrypt hash), and `"UpdatedAt"` is always
refreshed. -/
def applyUpdateFields (hasher : Hasher) (now : Nat) (p : UpdatePatch)
    (a : AdminRow) : AdminRow :=
  { a with
    fullName :=
      match p.fullName with
      | some s => if s.isEmpty then a.fullName else s
      | none => a.fullName
    phone :=
      match p.phone with
      | some s => if s.isEmpty then a.phone else s
      | none => a.phone
    passwordHash :=
      match p.password with
      | some s => if s.isEmpty then a.passwordHash else hasher.hash s
      | none => a.passwordHash
    updatedAt := now }

/-- The `RETURNING` column list of the `UPDATE "Admin"` statement in
`updateAdmin` — again without `"PasswordHash"`. -/
def adminUpdateReturning (a : AdminRow) : List (String × Value) :=
  [("AdminID", .vNat a.adminID),
   ("StudentID", .vStr a.studentID),
   ("FullName", .vStr a.fullName),
   ("Email", .vStr a.email),
   ("Phone", .vStr a.phone),
   ("RoleID", .vNat a.roleID),
   ("BranchID", .vOptNat a.branchID),
   ("GraduationYear", .vNat a.graduationYear),
   ("CurrentYear", .vNat a.currentYear),
   ("CreatedAt", .vNat a.createdAt),
   ("UpdatedAt", .vNat a.updatedAt)]

/-- The `updateAdmin` service: fetch the admin by `AdminID` (absent ⇒
`createNotFoundError(INVALID_INPUT, 'Admin not found')`, HTTP 404); when a
truthy new password is supplied, re-authenticate `oldPassword` against the
stored hash (`bcrypt.compare` rejects outright when `oldPassword` is
absent, which the outer catch wraps as `DATABASE_ERROR`), failing with
`INVALID_INPUT 'Current password is incorrect'` on mismatch; then run the
dynamic single-statement `UPDATE` and return the `RETURNING` row.  Errors
leave the store untouched. -/
def updateAdmin (hasher : Hasher) (db : DB) (now adminID : Nat)
    (p : UpdatePatch) : Except APIError (List (String × Value)) × DB :=
  match db.admins.find? (fun a => a.adminID == adminID) with
  | none => (.error (createNotFoundError .INVALID_INPUT "Admin not found"), db)
  | some admin =>
    let committed : Except APIError (List (String × Value)) × DB :=
      (.ok (adminUpdateReturning (applyUpdateFields hasher now p admin)),
       { db with admins := db.admins.map (fun a =>
           if a.adminID == adminID then applyUpdateFields hasher now p a else a) })
    if truthyStr p.password then
      match p.oldPassword with
      | none => (.error (createServerError .DATABASE_ERROR "Error updating admin details"), db)
      | some oldPassword =>
        if hasher.compare oldPassword admin.passwordHash then committed
        else (.error (createValidationError .INVALID_INPUT "Current password is incorrect"), db)
    else committed

/-- The `validatedData` payload reaching `onboardAdmin` from the
onboarding middleware: the candidate's fields with the plaintext password
still present. -/
structure ValidatedData where
  studentID : String
  fullName : String
  email : String
  password : String
  phone : String
  roleID : Nat
  branchID : Option Nat
  graduationYear : Nat
  invitationCode : String
  deriving DecidableEq, Repr

/-- The spread `{ ...validatedData, passwordHash }` building the payload of
the atomic write. -/
def ValidatedData.withHash (v : ValidatedData) (passwordHash : String) : AdminData :=
  { studentID := v.studentID
    fullName := v.fullName
    email := v.email
    passwordHash := passwordHash
    phone := v.phone
    roleID := v.roleID
    branchID := v.branchID
    graduationYear := v.graduationYear
    invitationCode := v.invitationCode }

/-- The `onboardAdmin` orchestrator, sequencing the steps in source order
and short-circuiting on the first failure: invitation-code validation;
role-match assertion (message naming the expected role); StudentID
uniqueness; email uniqueness; role reference; branch reference when a
branch is supplied; password hashing; the atomic write. -/
def onboardAdmin (hasher : Hasher) (curYear : Nat → Nat) (db : DB) (now : Nat)
    (v : ValidatedData) :
    Except APIError (List (String × Value)) × DB :=
  match validateInvitationCode db now v.invitationCode with
  | .error e => (.error e, db)
  | .ok invitationCode =>
    if v.roleID != invitationCode.roleID then
      (.error (createValidationError .INVALID_ROLE
        ("RoleID must match invitation code (expected: "
          ++ toString invitationCode.roleID ++ ")")), db)
    else if checkStudentIDExists db v.studentID then
      (.error (createConflictError .DUPLICATE_STUDENT_ID "Student ID already exists"), db)
    else if checkEmailExists db v.email then
      (.error (createConflictError .DUPLICATE_EMAIL "Email already registered"), db)
    else
      match validateRole db v.roleID with
      | .error e => (.error e, db)
      | .ok _ =>
        match (if truthyNat v.branchID then validateBranch db v.branchID else .ok none) with
        | .error e => (.error e, db)
        | .ok _ =>
          createAdminWithTransaction curYear db
            (v.withHash (hashPassword hasher v.password))
            invitationCode now

/-! ## Update-input middleware (`src/middleware/validateAdmin.js`) -/

/-- The raw `req.body` of a profile-update request as the middleware sees
it: each field `none` when `undefined`/`null`. -/
structure RawUpdateBody where
  fullName : Option String
  phone : Option String
  password : Option String
  oldPassword : Option String
  deriving DecidableEq, Repr

/-- The `validateAdminUpdateInput` middleware: validate `fullName` and
`phone` when present (through the format validators `vName`, `vPhone` of
`src/utils/validators.js`, taken as parameters); when `password` is
present, require a truthy `oldPassword` first — else
`createValidationError(MISSING_FIELD, 'Old password is required to set new
password')` — and only then validate the new password's strength; finally
reject an empty validated patch with `INVALID_INPUT`. -/
def validateAdminUpdateInput (vName vPhone vPass : String → Except APIError String)
    (raw : RawUpdateBody) : Except APIError UpdatePatch := do
  let vFullName : Option String ←
    match raw.fullName with
    | none => pure none
    | some s => do
      let s' ← vName s
      pure (some s')
  let vPhoneField : Option String ←
    match raw.phone with
    | none => pure none
    | some s => do
      let s' ← vPhone s
      pure (some s')
  let passFields : Option String × Option String ←
    match raw.password with
    | none => pure (none, none)
    | some pw =>
      if !truthyStr raw.oldPassword then
        throw (createValidationError .MISSING_FIELD
          "Old password is required to set new password")
      else do
        let pw' ← vPass pw
        pure (some pw', raw.oldPassword)
  if vFullName.isNone && vPhoneField.isNone && passFields.1.isNone then
    throw (createValidationError .INVALID_INPUT
      "At least one field (fullName, phone, or password) must be provided")
  pure { fullName := vFullName, phone := vPhoneField,
         password := passFields.1, oldPassword := passFields.2 }

/-- The route pipeline for `PUT /admin/:adminId`: the update middleware
runs before the service, so a middleware rejection reaches the caller with
the store untouched and without the service ever running. -/
def updateAdminPipeline (vName vPhone vPass : String → Except APIError String)
    (hasher : Hasher) (db : DB) (now adminID : Nat) (raw : RawUpdateBody) :
    Except APIError (List (String × Value)) × DB :=
  match validateAdminUpdateInput vName vPhone vPass raw with
  | .error e => (.error e, db)
  | .ok patch => updateAdmin hasher db now adminID patch

/-! ## Concrete sample data, used to exercise the theorems on closed runs -/

/-- A toy hash: prepend a tag; compare by re-hashing. -/
def sampleHasher : Hasher :=
  { hash := fun p => "h:" ++ p, compare := fun p d => d == "h:" ++ p }

/-- A toy derivation of the server-computed `CurrentYear` column. -/
def sampleCurYear : Nat → Nat := fun g => g - 2023

/-- Role 1. -/
def sampleRole : RoleRow := { roleID := 1, roleName := "SuperAdmin", accessLevel := 1 }

/-- An eligible invitation code bound to role 1. -/
def sampleCode : InvitationCodeRow :=
  { codeID := 10, code := "INVITE2024ABC", roleID := 1, isActive := true,
    isUsed := false, expiresAt := none, usedByAdminID := none, updatedAt := 0 }

/-- An admin already on file. -/
def sampleAdmin : AdminRow :=
  { adminID := 5, studentID := "CS2024001", fullName := "John Doe",
    email := "john@example.com", passwordHash := "h:Secure1!",
    phone := "+919876543210", roleID := 1, branchID := some 1,
    graduationYear := 2026, currentYear := 3, invitationCode := "OLDCODE1",
    createdAt := 0, updatedAt := 0 }

/-- A small store holding the sample rows. -/
def sampleDB : DB :=
  { admins := [sampleAdmin], invitationCodes := [sampleCode],
    roles := [sampleRole], branches := [{ branchID := 1, branchName := "CSE" }],
    nextAdminID := 6 }

/-- A fresh candidate whose identifiers are not yet taken. -/
def sampleCandidate : ValidatedData :=
  { studentID := "CS2024002", fullName := "Jane Roe", email := "jane@example.com",
    password := "Secure2!", phone := "+919876543211", roleID := 1,
    branchID := some 1, graduationYear := 2026, invitationCode := "INVITE2024ABC" }

/-! ## Claim theorems -/

/-- A successful insert appends exactly the returned row and touches no
other store. -/
lemma insertAdmin_ok_shape {curYear : Nat → Nat} {db : DB} {d : AdminData}
    {now : Nat} {row : AdminRow} {db' : DB}
    (h : insertAdmin curYear db d now = .ok (row, db')) :
    db'.admins = db.admins ++ [row] ∧ db'.invitationCodes = db.invitationCodes := by
  unfold insertAdmin at h
  by_cases h1 : db.admins.any (fun a => a.studentID == d.studentID)
  · simp [h1] at h
  · by_cases h2 : db.admins.any (fun a => a.email == d.email)
    · simp [h1, h2] at h
    · simp [h1, h2] at h
      obtain ⟨hrow, hdb⟩ := h
      subst hdb
      exact ⟨by rw [hrow], rfl⟩

/-- A successful used-marking leaves the admin store alone and leaves some
row with the given `CodeID` marked used by the given admin. -/
lemma markInvitationCodeUsed_ok_shape {db : DB} {codeID adminID now : Nat} {db' : DB}
    (h : markInvitationCodeUsed db codeID adminID now = .ok db') :
    db'.admins = db.admins ∧
    ∃ ic, ic ∈ db'.invitationCodes ∧ ic.codeID = codeID ∧
      ic.isUsed = true ∧ ic.usedByAdminID = some adminID := by
  unfold markInvitationCodeUsed at h
  by_cases hany : db.invitationCodes.any (fun ic => ic.codeID == codeID)
  · simp only [hany, if_true] at h
    obtain ⟨ic0, hmem, hcode⟩ := List.any_eq_true.mp hany
    injection h with h
    subst h
    refine ⟨rfl, { ic0 with isUsed := true, usedByAdminID := some adminID, updatedAt := now },
      ?_, ?_, rfl, rfl⟩
    · refine List.mem_map.mpr ⟨ic0, hmem, ?_⟩
      simp [hcode]
    · simpa using hcode
  · simp [hany] at h

/-- C1: the atomic creation step either persists the new admin row and the
invitation code's used-marking together (the code marked as used by
exactly the new admin), or persists neither: on any failure inside the
step the returned store is the entry store unchanged and a
`TransactionFailed` error (HTTP 500) is surfaced. -/
theorem createAdminWithTransaction_atomic (curYear : Nat → Nat) (db : DB)
    (d : AdminData) (icd : InvitationCodeRow) (now : Nat) :
    (∀ e db', createAdminWithTransaction curYear db d icd now = (.error e, db') →
        db' = db ∧ e.errorCode = .TRANSACTION_FAILED ∧ e.statusCode = 500)
  ∧ (∀ obj db', createAdminWithTransaction curYear db d icd now = (.ok obj, db') →
      ∃ row, obj = adminInsertReturning row ∧
        db'.admins = db.admins ++ [row] ∧
        ∃ ic, ic ∈ db'.invitationCodes ∧ ic.codeID = icd.codeID ∧
          ic.isUsed = true ∧ ic.usedByAdminID = some row.adminID) := by
  cases hins : insertAdmin curYear db
      { d with branchID := if truthyNat d.branchID then d.branchID else none } now with
  | error msg =>
    have hc : createAdminWithTransaction curYear db d icd now =
        (.error (createServerError .TRANSACTION_FAILED msg), db) := by
      simp [createAdminWithTransaction, hins]
    constructor
    · intro e db' he
      rw [hc] at he
      injection he with he1 he2
      injection he1 with he1
      subst he1; subst he2
      exact ⟨rfl, rfl, rfl⟩
    · intro obj db' hobj
      rw [hc] at hobj
      injection hobj with hobj1 _
      exact absurd hobj1 (by intro hcon; exact Except.noConfusion hcon)
  | ok p =>
    obtain ⟨row, db1⟩ := p
    cases hmark : markInvitationCodeUsed db1 icd.codeID row.adminID now with
    | error msg =>
      have hc : createAdminWithTransaction curYear db d icd now =
          (.error (createServerError .TRANSACTION_FAILED msg), db) := by
        simp [createAdminWithTransaction, hins, hmark]
      constructor
      · intro e db' he
        rw [hc] at he
        injection he with he1 he2
        injection he1 with he1
        subst he1; subst he2
        exact ⟨rfl, rfl, rfl⟩
      · intro obj db' hobj
        rw [hc] at hobj
        injection hobj with hobj1 _
        exact absurd hobj1 (by intro hcon; exact Except.noConfusion hcon)
    | ok db2 =>
      have hc : createAdminWithTransaction curYear db d icd now =
          (.ok (adminInsertReturning row), db2) := by
        simp [createAdminWithTransaction, hins, hmark]
      obtain ⟨hadm1, hinv1⟩ := insertAdmin_ok_shape hins
      obtain ⟨hadm2, ic, hmem, hcode, hused, hby⟩ := markInvitationCodeUsed_ok_shape hmark
      constructor
      · intro e db' he
        rw [hc] at he
        injection he with he1 _
        exact absurd he1 (by intro hcon; exact Except.noConfusion hcon)
      · intro obj db' hobj
        rw [hc] at hobj
        injection hobj with hobj1 hobj2
        injection hobj1 with hobj1
        subst hobj2
        exact ⟨row, hobj1.symm, by rw [hadm2, hadm1], ic, hmem, hcode, hused, hby⟩

/-- Witness for C1: marking a `CodeID` that is not on file makes the write
fail, and the store returned alongside the `TransactionFailed` error is the
entry store unchanged. -/
theorem createAdminWithTransaction_atomic_witness :
    sampleDB = sampleDB ∧
    (createServerError ErrorCode.TRANSACTION_FAILED
      "Failed to mark invitation code as used").errorCode = .TRANSACTION_FAILED ∧
    (createServerError ErrorCode.TRANSACTION_FAILED
      "Failed to mark invitation code as used").statusCode = 500 :=
  (createAdminWithTransaction_atomic sampleCurYear sampleDB
    (sampleCandidate.withHash "h:Secure2!") { sampleCode with codeID := 99 } 7).1
    (createServerError .TRANSACTION_FAILED "Failed to mark invitation code as used")
    sampleDB (by decide)

/-- C2: for every invitation code string and ledger state the check reports
exactly one of not-found / inactive / already-used / expired / eligible,
the checks being applied in the order existence, active flag, used flag,
expiry — each failure needs only the earlier checks to have passed, so it
short-circuits the later ones — and each failure carries its own distinct
error code. -/
theorem validateInvitationCode_check_order (db : DB) (now : Nat) (code : String) :
    (findInvitationWithRole db code = none →
      validateInvitationCode db now code =
        .error (createNotFoundError .INVALID_INVITATION_CODE "Invitation code does not exist"))
  ∧ (∀ ic r, findInvitationWithRole db code = some (ic, r) → ic.isActive = false →
      validateInvitationCode db now code =
        .error (createValidationError .INVITATION_CODE_INACTIVE "Invitation code is inactive"))
  ∧ (∀ ic r, findInvitationWithRole db code = some (ic, r) → ic.isActive = true →
      ic.isUsed = true →
      validateInvitationCode db now code =
        .error (createValidationError .INVITATION_CODE_ALREADY_USED
          "Invitation code has already been used"))
  ∧ (∀ ic r t, findInvitationWithRole db code = some (ic, r) → ic.isActive = true →
      ic.isUsed = false → ic.expiresAt = some t → t < now →
      validateInvitationCode db now code =
        .error (createValidationError .INVITATION_CODE_EXPIRED "Invitation code has expired"))
  ∧ (∀ ic r, findInvitationWithRole db code = some (ic, r) → ic.isActive = true →
      ic.isUsed = false → (∀ t, ic.expiresAt = some t → ¬ t < now) →
      validateInvitationCode db now code = .ok ic)
  ∧ ((∃ ic, validateInvitationCode db now code = .ok ic) ∨
     (∃ e, validateInvitationCode db now code = .error e ∧
       (e.errorCode = .INVALID_INVITATION_CODE ∨ e.errorCode = .INVITATION_CODE_INACTIVE ∨
        e.errorCode = .INVITATION_CODE_ALREADY_USED ∨ e.errorCode = .INVITATION_CODE_EXPIRED))) := by
  refine ⟨?_, ?_, ?_, ?_, ?_, ?_⟩
  · intro h
    simp [validateInvitationCode, h]
  · intro ic r h hact
    simp [validateInvitationCode, h, hact]
  · intro ic r h hact hused
    simp [validateInvitationCode, h, hact, hused]
  · intro ic r t h hact hused hexp hlt
    simp [validateInvitationCode, h, hact, hused, hexp, hlt]
  · intro ic r h hact hused hexp
    simp only [validateInvitationCode, h, hact, hused, Bool.not_true,
      Bool.false_eq_true, if_false, if_neg]
    cases het : ic.expiresAt with
    | none => simp
    | some t => simp [hexp t het]
  · unfold validateInvitationCode
    cases h : findInvitationWithRole db code with
    | none => exact Or.inr ⟨_, rfl, Or.inl rfl⟩
    | some p =>
      obtain ⟨ic, r⟩ := p
      cases hact : ic.isActive with
      | false =>
        exact Or.inr ⟨createValidationError .INVITATION_CODE_INACTIVE
          "Invitation code is inactive", by simp [hact], Or.inr (Or.inl rfl)⟩
      | true =>
        cases hused : ic.isUsed with
        | true =>
          exact Or.inr ⟨createValidationError .INVITATION_CODE_ALREADY_USED
            "Invitation code has already been used",
            by simp [hact, hused], Or.inr (Or.inr (Or.inl rfl))⟩
        | false =>
          cases het : ic.expiresAt with
          | none => exact Or.inl ⟨ic, by simp [hact, hused, het]⟩
          | some t =>
            by_cases hlt : t < now
            · exact Or.inr ⟨createValidationError .INVITATION_CODE_EXPIRED
                "Invitation code has expired",
                by simp [hact, hused, het, hlt], Or.inr (Or.inr (Or.inr rfl))⟩
            · exact Or.inl ⟨ic, by simp [hact, hused, het, hlt]⟩

/-- C3: when the invitation code is eligible but the submitted role
identifier differs from the role bound to the code, onboarding fails with
`InvalidRole` naming the expected role, and the store is returned
unchanged — with no assumption that the submitted role is absent from the
Role store, so this holds even when it exists there. -/
theorem onboardAdmin_role_mismatch (hasher : Hasher) (curYear : Nat → Nat)
    (db : DB) (now : Nat) (v : ValidatedData) (ic : InvitationCodeRow)
    (hval : validateInvitationCode db now v.invitationCode = .ok ic)
    (hne : v.roleID ≠ ic.roleID) :
    onboardAdmin hasher curYear db now v =
      (.error (createValidationError .INVALID_ROLE
        ("RoleID must match invitation code (expected: "
          ++ toString ic.roleID ++ ")")), db) := by
  have hne' : (v.roleID != ic.roleID) = true := by simp [hne]
  simp [onboardAdmin, hval, hne']

/-- Witness for C3: a candidate submitting role 2 against a code bound to
role 1 is rejected with the expected-role message, even though role 2
exists in the Role store. -/
theorem onboardAdmin_role_mismatch_witness :
    onboardAdmin sampleHasher sampleCurYear
      { sampleDB with roles := [sampleRole, { roleID := 2, roleName := "Admin2", accessLevel := 2 }] }
      7 { sampleCandidate with roleID := 2 } =
    (.error (createValidationError .INVALID_ROLE
      ("RoleID must match invitation code (expected: " ++ toString sampleCode.roleID ++ ")")),
     { sampleDB with roles := [sampleRole, { roleID := 2, roleName := "Admin2", accessLevel := 2 }] }) :=
  onboardAdmin_role_mismatch sampleHasher sampleCurYear
    { sampleDB with roles := [sampleRole, { roleID := 2, roleName := "Admin2", accessLevel := 2 }] }
    7 { sampleCandidate with roleID := 2 } sampleCode (by decide) (by decide)

/-- C4: the orchestrator performs its steps in the strict source order —
invitation-code validation, role-match assertion, student-identifier
uniqueness (`DuplicateStudentID`), email uniqueness (`DuplicateEmail`),
role reference, branch reference only when a branch is supplied, password
hashing, then the atomic write — short-circuiting on the first failing
step: in particular the duplicate-student-identifier outcome needs no
assumption about the email, so a candidate with both taken fails with
`DuplicateStudentID`, not `DuplicateEmail`. -/
theorem onboardAdmin_step_order (hasher : Hasher) (curYear : Nat → Nat)
    (db : DB) (now : Nat) (v : ValidatedData) :
    (∀ e, validateInvitationCode db now v.invitationCode = .error e →
        onboardAdmin hasher curYear db now v = (.error e, db))
  ∧ (∀ ic, validateInvitationCode db now v.invitationCode = .ok ic →
      v.roleID ≠ ic.roleID →
        onboardAdmin hasher curYear db now v =
          (.error (createValidationError .INVALID_ROLE
            ("RoleID must match invitation code (expected: "
              ++ toString ic.roleID ++ ")")), db))
  ∧ (∀ ic, validateInvitationCode db now v.invitationCode = .ok ic →
      v.roleID = ic.roleID → checkStudentIDExists db v.studentID = true →
        onboardAdmin hasher curYear db now v =
          (.error (createConflictError .DUPLICATE_STUDENT_ID "Student ID already exists"), db))
  ∧ (∀ ic, validateInvitationCode db now v.invitationCode = .ok ic →
      v.roleID = ic.roleID → checkStudentIDExists db v.studentID = false →
      checkEmailExists db v.email = true →
        onboardAdmin hasher curYear db now v =
          (.error (createConflictError .DUPLICATE_EMAIL "Email already registered"), db))
  ∧ (∀ ic e, validateInvitationCode db now v.invitationCode = .ok ic →
      v.roleID = ic.roleID → checkStudentIDExists db v.studentID = false →
      checkEmailExists db v.email = false → validateRole db v.roleID = .error e →
        onboardAdmin hasher curYear db now v = (.error e, db))
  ∧ (∀ ic r e, validateInvitationCode db now v.invitationCode = .ok ic →
      v.roleID = ic.roleID → checkStudentIDExists db v.studentID = false →
      checkEmailExists db v.email = false → validateRole db v.roleID = .ok r →
      truthyNat v.branchID = true → validateBranch db v.branchID = .error e →
        onboardAdmin hasher curYear db now v = (.error e, db))
  ∧ (∀ ic r b, validateInvitationCode db now v.invitationCode = .ok ic →
      v.roleID = ic.roleID → checkStudentIDExists db v.studentID = false →
      checkEmailExists db v.email = false → validateRole db v.roleID = .ok r →
      (if truthyNat v.branchID then validateBranch db v.branchID else .ok none) = .ok b →
        onboardAdmin hasher curYear db now v =
          createAdminWithTransaction curYear db
            (v.withHash (hashPassword hasher v.password)) ic now) := by
  refine ⟨?_, ?_, ?_, ?_, ?_, ?_, ?_⟩
  · intro e hval
    simp [onboardAdmin, hval]
  · intro ic hval hne
    have hne' : (v.roleID != ic.roleID) = true := by simp [hne]
    simp [onboardAdmin, hval, hne']
  · intro ic hval heq hsid
    have heq' : (v.roleID != ic.roleID) = false := by simp [heq]
    simp [onboardAdmin, hval, heq', hsid]
  · intro ic hval heq hsid hmail
    have heq' : (v.roleID != ic.roleID) = false := by simp [heq]
    simp [onboardAdmin, hval, heq', hsid, hmail]
  · intro ic e hval heq hsid hmail hrole
    have heq' : (v.roleID != ic.roleID) = false := by simp [heq]
    simp [onboardAdmin, hval, heq', hsid, hmail, hrole]
  · intro ic r e hval heq hsid hmail hrole hbr hbranch
    have heq' : (v.roleID != ic.roleID) = false := by simp [heq]
    simp [onboardAdmin, hval, heq', hsid, hmail, hrole, hbr, hbranch]
  · intro ic r b hval heq hsid hmail hrole hbranch
    have heq' : (v.roleID != ic.roleID) = false := by simp [heq]
    simp [onboardAdmin, hval, heq', hsid, hmail, hrole, hbranch]

/-- Witness for C4: a candidate whose student identifier and email are both
already taken fails with `DuplicateStudentID`, not `DuplicateEmail`. -/
theorem onboardAdmin_step_order_witness :
    onboardAdmin sampleHasher sampleCurYear sampleDB 7
      { sampleCandidate with studentID := "CS2024001", email := "john@example.com" } =
    (.error (createConflictError .DUPLICATE_STUDENT_ID "Student ID already exists"), sampleDB) :=
  (onboardAdmin_step_order sampleHasher sampleCurYear sampleDB 7
    { sampleCandidate with studentID := "CS2024001", email := "john@example.com" }).2.2.1
    sampleCode (by decide) (by decide) (by decide)

/-- A committed atomic write hands back exactly the insert's `RETURNING`
row object. -/
lemma createAdminWithTransaction_ok_obj {curYear : Nat → Nat} {db : DB}
    {d : AdminData} {icd : InvitationCodeRow} {now : Nat}
    {obj : List (String × Value)} {db' : DB}
    (h : createAdminWithTransaction curYear db d icd now = (.ok obj, db')) :
    ∃ row, obj = adminInsertReturning row := by
  cases hins : insertAdmin curYear db
      { d with branchID := if truthyNat d.branchID then d.branchID else none } now with
  | error msg =>
    simp only [createAdminWithTransaction, hins] at h
    simp at h
  | ok p =>
    obtain ⟨row, db1⟩ := p
    cases hmark : markInvitationCodeUsed db1 icd.codeID row.adminID now with
    | error msg =>
      simp only [createAdminWithTransaction, hins, hmark] at h
      simp at h
    | ok db2 =>
      simp only [createAdminWithTransaction, hins, hmark] at h
      injection h with h1 _
      injection h1 with h1
      exact ⟨row, h1.symm⟩

/-- A successful onboarding hands back exactly the insert's `RETURNING`
row object. -/
lemma onboardAdmin_ok_obj {hasher : Hasher} {curYear : Nat → Nat} {db : DB}
    {now : Nat} {v : ValidatedData} {obj : List (String × Value)} {db' : DB}
    (h : onboardAdmin hasher curYear db now v = (.ok obj, db')) :
    ∃ row, obj = adminInsertReturning row := by
  unfold onboardAdmin at h
  cases hval : validateInvitationCode db now v.invitationCode with
  | error e => simp only [hval] at h; simp at h
  | ok ic =>
    simp only [hval] at h
    split at h
    · simp at h
    · split at h
      · simp at h
      · split at h
        · simp at h
        · cases hrole : validateRole db v.roleID with
          | error e => simp only [hrole] at h; simp at h
          | ok r =>
            simp only [hrole] at h
            cases hbr : (if truthyNat v.branchID then validateBranch db v.branchID else .ok none) with
            | error e => simp only [hbr] at h; simp at h
            | ok b =>
              simp only [hbr] at h
              exact createAdminWithTransaction_ok_obj h

/-- A successful update hands back exactly the update's `RETURNING` row
object. -/
lemma updateAdmin_ok_obj {hasher : Hasher} {db : DB} {now adminID : Nat}
    {p : UpdatePatch} {obj : List (String × Value)} {db' : DB}
    (h : updateAdmin hasher db now adminID p = (.ok obj, db')) :
    ∃ a, obj = adminUpdateReturning a := by
  unfold updateAdmin at h
  cases hfind : db.admins.find? (fun a => a.adminID == adminID) with
  | none => simp only [hfind] at h; simp at h
  | some admin =>
    simp only [hfind] at h
    split at h
    · cases hold : p.oldPassword with
      | none => simp only [hold] at h; simp at h
      | some op =>
        simp only [hold] at h
        split at h
        · injection h with h1 _
          injection h1 with h1
          exact ⟨applyUpdateFields hasher now p admin, h1.symm⟩
        · simp at h
    · injection h with h1 _
      injection h1 with h1
      exact ⟨applyUpdateFields hasher now p admin, h1.symm⟩

/-- The key lists of the three caller-facing row objects never include
`PasswordHash`. -/
lemma returning_keys_no_hash (a : AdminRow) :
    "PasswordHash" ∉ (adminInsertReturning a).map Prod.fst ∧
    "PasswordHash" ∉ (loginAdminResult a).map Prod.fst ∧
    "PasswordHash" ∉ (adminUpdateReturning a).map Prod.fst := by
  refine ⟨?_, ?_, ?_⟩ <;>
    simp [adminInsertReturning, loginAdminResult, adminUpdateReturning]

/-- C5: the admin record handed back by a successful onboarding, login or
profile update never contains the password hash field. -/
theorem results_omit_password_hash (hasher : Hasher) (curYear : Nat → Nat)
    (db : DB) (now adminID : Nat) (v : ValidatedData)
    (email password : String) (p : UpdatePatch) :
    (∀ obj db', onboardAdmin hasher curYear db now v = (.ok obj, db') →
        "PasswordHash" ∉ obj.map Prod.fst)
  ∧ (∀ obj, loginAdmin hasher db email password = .ok obj →
        "PasswordHash" ∉ obj.map Prod.fst)
  ∧ (∀ obj db', updateAdmin hasher db now adminID p = (.ok obj, db') →
        "PasswordHash" ∉ obj.map Prod.fst) := by
  refine ⟨?_, ?_, ?_⟩
  · intro obj db' h
    obtain ⟨row, hrow⟩ := onboardAdmin_ok_obj h
    rw [hrow]
    exact (returning_keys_no_hash row).1
  · intro obj h
    unfold loginAdmin at h
    cases hfind : db.admins.find? (fun a => a.email == email) with
    | none => simp only [hfind] at h; simp at h
    | some admin =>
      simp only [hfind] at h
      split at h
      · injection h with h1
        rw [← h1]
        exact (returning_keys_no_hash admin).2.1
      · simp at h
  · intro obj db' h
    obtain ⟨a, ha⟩ := updateAdmin_ok_obj h
    rw [ha]
    exact (returning_keys_no_hash a).2.2

/-- Witness for C5: a successful login on the sample store returns the
hash-free object. -/
theorem results_omit_password_hash_witness :
    "PasswordHash" ∉ (loginAdminResult sampleAdmin).map Prod.fst :=
  (results_omit_password_hash sampleHasher sampleCurYear sampleDB 0 0
    sampleCandidate "john@example.com" "Secure1!"
    { fullName := none, phone := none, password := none, oldPassword := none }).2.1
    (loginAdminResult sampleAdmin) (by decide)

/-- Witness for C2: on the sample store a used code is reported as
already-used (its expiry being irrelevant). -/
theorem validateInvitationCode_check_order_witness :
    validateInvitationCode
      { sampleDB with invitationCodes := [{ sampleCode with isUsed := true, expiresAt := some 1 }] }
      100 "INVITE2024ABC" =
    .error (createValidationError .INVITATION_CODE_ALREADY_USED
      "Invitation code has already been used") :=
  (validateInvitationCode_check_order
    { sampleDB with invitationCodes := [{ sampleCode with isUsed := true, expiresAt := some 1 }] }
    100 "INVITE2024ABC").2.2.1
    { sampleCode with isUsed := true, expiresAt := some 1 } sampleRole
    (by decide) (by decide) (by decide)

/-- C6: a login attempt with a nonexistent email and one with an existing
email but a wrong password produce failures with the same error kind,
status and message, so the caller cannot tell whether the account exists. -/
theorem loginAdmin_uniform_failure (hasher : Hasher) (db1 db2 : DB)
    (email1 password1 email2 password2 : String) (a : AdminRow)
    (h1 : db1.admins.find? (fun x => x.email == email1) = none)
    (h2 : db2.admins.find? (fun x => x.email == email2) = some a)
    (h3 : hasher.compare password2 a.passwordHash = false) :
    loginAdmin hasher db1 email1 password1 =
      .error (createValidationError .INVALID_INPUT "Invalid email or password") ∧
    loginAdmin hasher db2 email2 password2 =
      .error (createValidationError .INVALID_INPUT "Invalid email or password") ∧
    loginAdmin hasher db1 email1 password1 = loginAdmin hasher db2 email2 password2 := by
  have ha : loginAdmin hasher db1 email1 password1 =
      .error (createValidationError .INVALID_INPUT "Invalid email or password") := by
    simp [loginAdmin, h1]
  have hb : loginAdmin hasher db2 email2 password2 =
      .error (createValidationError .INVALID_INPUT "Invalid email or password") := by
    simp [loginAdmin, h2, h3]
  exact ⟨ha, hb, ha.trans hb.symm⟩

/-- Witness for C6: on the sample store, an unknown email and a known email
with the wrong password are indistinguishable failures. -/
theorem loginAdmin_uniform_failure_witness :
    loginAdmin sampleHasher sampleDB "nobody@example.com" "Whatever1!" =
    loginAdmin sampleHasher sampleDB "john@example.com" "WrongPass1!" :=
  (loginAdmin_uniform_failure sampleHasher sampleDB sampleDB
    "nobody@example.com" "Whatever1!" "john@example.com" "WrongPass1!"
    sampleAdmin (by decide) (by decide) (by decide)).2.2

/-- C7: a profile update aimed at an adminId absent from the Admin store
fails with the not-found error (HTTP 404, built by `createNotFoundError`,
message `Admin not found`) and performs no mutation — the returned store is
the entry store. -/
theorem updateAdmin_not_found (hasher : Hasher) (db : DB) (now adminID : Nat)
    (p : UpdatePatch) (h : ∀ a ∈ db.admins, a.adminID ≠ adminID) :
    updateAdmin hasher db now adminID p =
      (.error (createNotFoundError .INVALID_INPUT "Admin not found"), db) ∧
    (createNotFoundError ErrorCode.INVALID_INPUT "Admin not found").statusCode = 404 := by
  have hfind : db.admins.find? (fun a => a.adminID == adminID) = none := by
    rw [List.find?_eq_none]
    intro a ha
    simpa using h a ha
  exact ⟨by simp [updateAdmin, hfind], rfl⟩

/-- Witness for C7: no admin with id 999 is on the sample store, and the
update is rejected with HTTP 404, the store unchanged. -/
theorem updateAdmin_not_found_witness :
    updateAdmin sampleHasher sampleDB 7 999
      { fullName := some "New Name", phone := none, password := none, oldPassword := none } =
      (.error (createNotFoundError .INVALID_INPUT "Admin not found"), sampleDB) ∧
    (createNotFoundError ErrorCode.INVALID_INPUT "Admin not found").statusCode = 404 :=
  updateAdmin_not_found sampleHasher sampleDB 7 999
    { fullName := some "New Name", phone := none, password := none, oldPassword := none }
    (by decide)

/-- C8: a profile-update request carrying a `password` field but no
`oldPassword` is rejected by the validation middleware with `MissingField`,
before the service — and hence any password hashing — runs: the pipeline
outcome is the same for every hasher and the store (so the stored hash) is
returned unchanged.  The optional `fullName`/`phone` fields, when present,
are assumed to pass their format validators (which live outside the
service core). -/
theorem updatePipeline_password_without_old
    (vName vPhone vPass : String → Except APIError String)
    (db : DB) (now adminID : Nat) (raw : RawUpdateBody) (pw : String)
    (hpw : raw.password = some pw) (hold : raw.oldPassword = none)
    (hname : ∀ s, raw.fullName = some s → ∃ t, vName s = .ok t)
    (hphone : ∀ s, raw.phone = some s → ∃ t, vPhone s = .ok t) :
    validateAdminUpdateInput vName vPhone vPass raw =
      .error (createValidationError .MISSING_FIELD
        "Old password is required to set new password") ∧
    ∀ hasher : Hasher,
      updateAdminPipeline vName vPhone vPass hasher db now adminID raw =
        (.error (createValidationError .MISSING_FIELD
          "Old password is required to set new password"), db) := by
  have hmid : validateAdminUpdateInput vName vPhone vPass raw =
      .error (createValidationError .MISSING_FIELD
        "Old password is required to set new password") := by
    cases hf : raw.fullName with
    | none =>
      cases hp : raw.phone with
      | none =>
        simp only [validateAdminUpdateInput, hf, hp, hpw, hold, truthyStr]
        rfl
      | some s2 =>
        obtain ⟨t2, ht2⟩ := hphone s2 hp
        simp only [validateAdminUpdateInput, hf, hp, ht2, hpw, hold, truthyStr]
        rfl
    | some s1 =>
      obtain ⟨t1, ht1⟩ := hname s1 hf
      cases hp : raw.phone with
      | none =>
        simp only [validateAdminUpdateInput, hf, hp, ht1, hpw, hold, truthyStr]
        rfl
      | some s2 =>
        obtain ⟨t2, ht2⟩ := hphone s2 hp
        simp only [validateAdminUpdateInput, hf, hp, ht1, ht2, hpw, hold, truthyStr]
        rfl
  refine ⟨hmid, fun hasher => ?_⟩
  simp [updateAdminPipeline, hmid]

/-- Witness for C8: a patch holding only a new password is rejected with
`MissingField` and the sample store comes back untouched. -/
theorem updatePipeline_password_without_old_witness :
    updateAdminPipeline (fun s => .ok s) (fun s => .ok s) (fun s => .ok s)
      sampleHasher sampleDB 7 5
      { fullName := none, phone := none, password := some "NewPass1!", oldPassword := none } =
      (.error (createValidationError .MISSING_FIELD
        "Old password is required to set new password"), sampleDB) :=
  (updatePipeline_password_without_old (fun s => .ok s) (fun s => .ok s) (fun s => .ok s)
    sampleDB 7 5
    { fullName := none, phone := none, password := some "NewPass1!", oldPassword := none }
    "NewPass1!" rfl rfl
    (fun _ h => Option.noConfusion h) (fun _ h => Option.noConfusion h)).2 sampleHasher

/-- Sample token claims for concrete verification runs. -/
def sampleClaims : JwtClaims :=
  { adminID := 5, studentID := "CS2024001", email := "john@example.com",
    roleID := 1, fullName := "John Doe" }

/-- A sample signed body carrying the service's fixed issuer and audience,
expiring at time 100. -/
def sampleBody : JwtBody :=
  { claims := sampleClaims, iss := "gfg-event-management", aud := "admin-api",
    sub := "admin-5", exp := 100 }

/-- C9 counterexample: on a concrete token whose signature is invalid, the
verification failure carries error kind `INTERNAL_ERROR` with HTTP status
500 — not the `Unauthorized` kind (HTTP 401) the claim states. -/
theorem verifyJWT_not_unauthorized :
    verifyJWT (fun s _ => s) (some "k") 0 { body := sampleBody, sig := "bad" } =
      .error (createServerError .INTERNAL_ERROR "JWT verification failed: invalid signature") ∧
    (createServerError ErrorCode.INTERNAL_ERROR
      "JWT verification failed: invalid signature").errorCode ≠ ErrorCode.UNAUTHORIZED ∧
    (createServerError ErrorCode.INTERNAL_ERROR
      "JWT verification failed: invalid signature").statusCode ≠ 401 :=
  ⟨by decide, by decide, by decide⟩

/-- C9 (amended): token verification fails with error kind `InternalError`
(HTTP 500, the `createServerError INTERNAL_ERROR` wrapper) whenever the
signature is invalid, the token is expired, or the audience/issuer claims
do not match the fixed `admin-api`/`gfg-event-management` pair; it returns
the decoded claims otherwise. -/
theorem verifyJWT_failure_internal (mac : String → JwtBody → String)
    (secret : String) (now : Nat) (tok : JwtToken) :
    ((tok.sig ≠ mac secret tok.body ∨ tok.body.exp ≤ now ∨
      tok.body.aud ≠ "admin-api" ∨ tok.body.iss ≠ "gfg-event-management") →
      ∃ e, verifyJWT mac (some secret) now tok = .error e ∧
        e.errorCode = .INTERNAL_ERROR ∧ e.statusCode = 500) ∧
    (tok.sig = mac secret tok.body → ¬ tok.body.exp ≤ now →
      tok.body.aud = "admin-api" → tok.body.iss = "gfg-event-management" →
      verifyJWT mac (some secret) now tok = .ok tok.body) := by
  constructor
  · intro h
    by_cases hsig : tok.sig = mac secret tok.body
    · by_cases hexp : tok.body.exp ≤ now
      · exact ⟨createServerError .INTERNAL_ERROR "JWT verification failed: jwt expired",
          by simp [verifyJWT, jwtLibVerify, hsig, hexp], rfl, rfl⟩
      · by_cases haud : tok.body.aud = "admin-api"
        · by_cases hiss : tok.body.iss = "gfg-event-management"
          · rcases h with h | h | h | h <;> first | exact absurd hsig (by simp [h]) | contradiction
          · exact ⟨createServerError .INTERNAL_ERROR "JWT verification failed: jwt issuer invalid",
              by simp [verifyJWT, jwtLibVerify, hsig, hexp, haud, hiss], rfl, rfl⟩
        · exact ⟨createServerError .INTERNAL_ERROR "JWT verification failed: jwt audience invalid",
            by simp [verifyJWT, jwtLibVerify, hsig, hexp, haud], rfl, rfl⟩
    · exact ⟨createServerError .INTERNAL_ERROR "JWT verification failed: invalid signature",
        by simp [verifyJWT, jwtLibVerify, hsig], rfl, rfl⟩
  · intro hsig hexp haud hiss
    simp [verifyJWT, jwtLibVerify, hsig, hexp, haud, hiss]

/-- Witness for the amended C9: a well-signed, unexpired token with the
fixed issuer/audience pair decodes successfully. -/
theorem verifyJWT_failure_internal_witness :
    verifyJWT (fun s _ => s) (some "k") 5 { body := sampleBody, sig := "k" } =
      .ok sampleBody :=
  (verifyJWT_failure_internal (fun s _ => s) "k" 5
    { body := sampleBody, sig := "k" }).2 rfl (by decide) rfl rfl

/-- C10: a successful profile update commits exactly the dynamic `SET`
clause — the supplied, non-empty fields among full name, phone and the
(hashed) password — on the addressed row, refreshes the update timestamp,
and leaves every other field of the record untouched. -/
theorem updateAdmin_frame (hasher : Hasher) (db : DB) (now adminID : Nat)
    (p : UpdatePatch) (a : AdminRow)
    (hfind : db.admins.find? (fun x => x.adminID == adminID) = some a)
    (hgate : truthyStr p.password = true →
      ∃ op, p.oldPassword = some op ∧ hasher.compare op a.passwordHash = true) :
    updateAdmin hasher db now adminID p =
      (.ok (adminUpdateReturning (applyUpdateFields hasher now p a)),
       { db with admins := db.admins.map (fun x =>
           if x.adminID == adminID then applyUpdateFields hasher now p x else x) }) ∧
    (applyUpdateFields hasher now p a).adminID = a.adminID ∧
    (applyUpdateFields hasher now p a).studentID = a.studentID ∧
    (applyUpdateFields hasher now p a).email = a.email ∧
    (applyUpdateFields hasher now p a).roleID = a.roleID ∧
    (applyUpdateFields hasher now p a).branchID = a.branchID ∧
    (applyUpdateFields hasher now p a).graduationYear = a.graduationYear ∧
    (applyUpdateFields hasher now p a).currentYear = a.currentYear ∧
    (applyUpdateFields hasher now p a).invitationCode = a.invitationCode ∧
    (applyUpdateFields hasher now p a).createdAt = a.createdAt ∧
    (applyUpdateFields hasher now p a).updatedAt = now ∧
    (truthyStr p.fullName = false → (applyUpdateFields hasher now p a).fullName = a.fullName) ∧
    (∀ s, p.fullName = some s → s.isEmpty = false →
      (applyUpdateFields hasher now p a).fullName = s) ∧
    (truthyStr p.phone = false → (applyUpdateFields hasher now p a).phone = a.phone) ∧
    (∀ s, p.phone = some s → s.isEmpty = false →
      (applyUpdateFields hasher now p a).phone = s) ∧
    (truthyStr p.password = false →
      (applyUpdateFields hasher now p a).passwordHash = a.passwordHash) ∧
    (∀ s, p.password = some s → s.isEmpty = false →
      (applyUpdateFields hasher now p a).passwordHash = hasher.hash s) := by
  refine ⟨?_, rfl, rfl, rfl, rfl, rfl, rfl, rfl, rfl, rfl, rfl, ?_, ?_, ?_, ?_, ?_, ?_⟩
  · cases htr : truthyStr p.password with
    | false => simp [updateAdmin, hfind, htr]
    | true =>
      obtain ⟨op, hop, hcmp⟩ := hgate htr
      simp [updateAdmin, hfind, htr, hop, hcmp]
  · intro h
    cases hf : p.fullName with
    | none => simp [applyUpdateFields, hf]
    | some s =>
      rw [hf] at h
      have h' : s.isEmpty = true := by simpa [truthyStr] using h
      simp [applyUpdateFields, hf, h']
  · intro s hs hne
    simp [applyUpdateFields, hs, hne]
  · intro h
    cases hf : p.phone with
    | none => simp [applyUpdateFields, hf]
    | some s =>
      rw [hf] at h
      have h' : s.isEmpty = true := by simpa [truthyStr] using h
      simp [applyUpdateFields, hf, h']
  · intro s hs hne
    simp [applyUpdateFields, hs, hne]
  · intro h
    cases hf : p.password with
    | none => simp [applyUpdateFields, hf]
    | some s =>
      rw [hf] at h
      have h' : s.isEmpty = true := by simpa [truthyStr] using h
      simp [applyUpdateFields, hf, h']
  · intro s hs hne
    simp [applyUpdateFields, hs, hne]

/-- Witness for C10: updating full name and password (with the correct old
password) on the sample admin commits exactly the patched row. -/
theorem updateAdmin_frame_witness :
    updateAdmin sampleHasher sampleDB 9 5
      { fullName := some "Johnny D", phone := none,
        password := some "NewPass9!", oldPassword := some "Secure1!" } =
      (.ok (adminUpdateReturning (applyUpdateFields sampleHasher 9
        { fullName := some "Johnny D", phone := none,
          password := some "NewPass9!", oldPassword := some "Secure1!" } sampleAdmin)),
       { sampleDB with admins := sampleDB.admins.map (fun x =>
           if x.adminID == 5 then applyUpdateFields sampleHasher 9
             { fullName := some "Johnny D", phone := none,
               password := some "NewPass9!", oldPassword := some "Secure1!" } x else x) }) :=
  (updateAdmin_frame sampleHasher sampleDB 9 5
    { fullName := some "Johnny D", phone := none,
      password := some "NewPass9!", oldPassword := some "Secure1!" } sampleAdmin
    (by decide) (fun _ => ⟨"Secure1!", rfl, by decide⟩)).1

end EventMgmt

